import Mathlib

/-!
Shallow embedding of the authentication / session / rate-limit layer of the
bigquery-mcp-server repository (files `bigquery_server.py` and
`bq_mcp_server.py`), together with proofs settling the frozen claims about it.

Modelling conventions:
* wall-clock instants (`datetime.now()`, `time.time()`) are integers, threaded
  explicitly as a `now` argument wherever the source reads the clock;
* Python dicts keyed by strings become total functions `String → Option _`
  (`defaultdict(list)` becomes `String → List Int`, absent key = `[]`);
* the random session token (`uuid4` + `time.time()` hashed by sha256) is
  modelled by passing the generated token as an explicit argument; theorems
  that need the generator's uniqueness guarantee take it as a hypothesis;
* Python truthiness of an optional string (`if not x`) is `pyTruthy`:
  falsy exactly when the value is absent (`None`) or the empty string;
* the external BigQuery collaborator is out of the specified core; its calls
  are an `Adapter` record of fallible oracles returning an abstract payload
  string, and the dispatcher additionally reports the list of operation
  adapters it invoked, so that "the adapter observes zero invocations" is a
  statement about that list.
-/

/-- Pointwise update of a string-keyed table. -/
def upd {α : Type} (f : String → α) (k : String) (v : α) : String → α :=
  fun x => if x = k then v else f x

/-- Python truthiness of an optional string: `None` and `""` are falsy. -/
def pyTruthy : Option String → Bool
  | none => false
  | some s => s ≠ ""

/-- `ClientSession` dataclass (both files): identity plus lifetime bounds.
The per-session cached `bigquery_client` handle belongs to the external
collaborator boundary and is omitted. -/
structure ClientSession where
  client_id : String
  session_token : String
  created_at : Int
  expires_at : Int
deriving DecidableEq

/-- `session_duration = timedelta(hours=1)`, in seconds. -/
def session_duration : Int := 3600

namespace BQS
/-! Embedding of `bigquery_server.py` (the FastMCP variant). -/

/-- `RateLimiter.__init__`: per-client request timestamps, cap and window.
`requests` models the `defaultdict(list)`: an absent client is `[]`. -/
structure RateLimiter where
  requests : String → List Int
  max_requests : Nat
  window : Int

/-- `RateLimiter.allow`: prune timestamps `≤ now - window` from the client's
list, store the pruned list, reject if the pruned count has reached
`max_requests`, otherwise record `now` and admit. -/
def RateLimiter.allow (rl : RateLimiter) (client_id : String) (now : Int) :
    Bool × RateLimiter :=
  let window_start := now - rl.window
  let kept := (rl.requests client_id).filter (fun t => window_start < t)
  if rl.max_requests ≤ kept.length then
    (false, { rl with requests := upd rl.requests client_id kept })
  else
    (true, { rl with requests := upd rl.requests client_id (kept ++ [now]) })

/-- Iterate `allow` for one client over a list of call instants, collecting
the admit/reject verdicts in order. -/
def runCalls (rl : RateLimiter) (client_id : String) (times : List Int) :
    List Bool × RateLimiter :=
  match times with
  | [] => ([], rl)
  | t :: rest =>
    let step := rl.allow client_id t
    let restRun := runCalls step.2 client_id rest
    (step.1 :: restRun.1, restRun.2)

/-- `ServerState`: session table, registered-client table, rate limiter.
(`_load_clients` reads config or the hard-coded defaults; theorems quantify
over the resulting table.) -/
structure ServerState where
  active_sessions : String → Option ClientSession
  registered_clients : String → Option String
  rate_limiter : RateLimiter

/-- The source's `validate_session` returns `Optional[ClientSession]`, with
three distinct `return None` sites (token falsy or absent; expired; rate
limited).  `VResult` labels the return site, matching the spec's
`SessionError` variants; `validate_session_opt` collapses it to the
source's return value. -/
inductive VResult where
  | notFound
  | expired
  | rateLimited
  | ok (session : ClientSession)
deriving DecidableEq

/-- `validate_session` (bigquery_server.py): falsy or absent token → not
found; expired (`now > expires_at`) → delete entry, expired; rate limiter
rejects → rate limited (session kept, limiter pruned); else the session. -/
def validate_session (st : ServerState) (session_token : String) (now : Int) :
    VResult × ServerState :=
  if session_token = "" then (.notFound, st)
  else
    match st.active_sessions session_token with
    | none => (.notFound, st)
    | some session =>
      if session.expires_at < now then
        (.expired,
         { st with active_sessions := upd st.active_sessions session_token none })
      else
        let step := st.rate_limiter.allow session.client_id now
        if step.1 then (.ok session, { st with rate_limiter := step.2 })
        else (.rateLimited, { st with rate_limiter := step.2 })

/-- The value the source function actually returns (`None` on every
rejection). -/
def validate_session_opt (st : ServerState) (session_token : String)
    (now : Int) : Option ClientSession × ServerState :=
  let r := validate_session st session_token now
  (match r.1 with
   | .ok s => some s
   | _ => none, r.2)

/-- The `authenticate` tool returns one of two JSON shapes: an error object
with a bare message, or the token record. -/
inductive AuthResult where
  | errorR (message : String)
  | okR (session_token : String) (expires_at : Int) (client_id : String)
deriving DecidableEq

/-- `authenticate` (bigquery_server.py): unknown client id or mismatched
secret both return the same error string; on success a fresh session is
stored under the generated token. -/
def authenticate (st : ServerState) (client_id client_secret : String)
    (token : String) (now : Int) : AuthResult × ServerState :=
  match st.registered_clients client_id with
  | none => (.errorR "Invalid client credentials", st)
  | some secret =>
    if secret ≠ client_secret then (.errorR "Invalid client credentials", st)
    else
      let session : ClientSession :=
        ⟨client_id, token, now, now + session_duration⟩
      (.okR token (now + session_duration) client_id,
       { st with active_sessions := upd st.active_sessions token (some session) })

end BQS

namespace MCP
/-! Embedding of `bq_mcp_server.py` (the dispatcher variant). -/

/-- `AuthenticationManager`: registered-client table and session table. -/
structure AuthenticationManager where
  registered_clients : String → Option String
  active_sessions : String → Option ClientSession

/-- The hard-coded `registered_clients` dict of `AuthenticationManager.__init__`. -/
def default_registered_clients : String → Option String := fun client_id =>
  if client_id = "demo_client_id_123" then some "demo_secret_xyz789"
  else if client_id = "analytics_client_456" then some "secret_abc123def"
  else none

/-- `AuthenticationManager.authenticate_client`: unknown client id or a
mismatched secret both return `None` with the manager untouched; otherwise a
session with lifetime `session_duration` is stored under the generated
`token` (passed in, see module comment) and the token is returned. -/
def AuthenticationManager.authenticate_client (am : AuthenticationManager)
    (client_id client_secret : String) (token : String) (now : Int) :
    Option String × AuthenticationManager :=
  match am.registered_clients client_id with
  | none => (none, am)
  | some secret =>
    if secret ≠ client_secret then (none, am)
    else
      let session : ClientSession :=
        ⟨client_id, token, now, now + session_duration⟩
      (some token,
       { am with active_sessions := upd am.active_sessions token (some session) })

/-- `AuthenticationManager.validate_session`: absent token → `False`;
present and `now > expires_at` → delete the entry and `False`; else `True`. -/
def AuthenticationManager.validate_session (am : AuthenticationManager)
    (session_token : String) (now : Int) : Bool × AuthenticationManager :=
  match am.active_sessions session_token with
  | none => (false, am)
  | some session =>
    if session.expires_at < now then
      (false,
       { am with active_sessions := upd am.active_sessions session_token none })
    else (true, am)

/-- `AuthenticationManager.get_session`. -/
def AuthenticationManager.get_session (am : AuthenticationManager)
    (session_token : String) : Option ClientSession :=
  am.active_sessions session_token

/-- `AuthenticationManager.revoke_session`: remove if present, report whether
removal occurred. -/
def AuthenticationManager.revoke_session (am : AuthenticationManager)
    (session_token : String) : Bool × AuthenticationManager :=
  match am.active_sessions session_token with
  | none => (false, am)
  | some _ =>
    (true,
     { am with active_sessions := upd am.active_sessions session_token none })

/-- `params.get("arguments", {})` fields used by the three tool handlers;
an absent key is `none`, and `.get` defaults are applied at use sites. -/
structure ToolArgs where
  sql : Option String := none
  max_results : Option Int := none
  use_legacy_sql : Option Bool := none
  dataset_id : Option String := none
  table_id : Option String := none

/-- The `params` object of a request; every field is optional. -/
structure Params where
  session_token : Option String := none
  name : Option String := none
  client_id : Option String := none
  client_secret : Option String := none
  arguments : ToolArgs := {}

/-- A request: `{method, params}`, both possibly absent
(`request.get("method")`, `request.get("params", {})`). -/
structure Request where
  method : Option String := none
  params : Option Params := none

/-- Payload of a `result` response: the authentication result dict
(`session_token`, `expires_at`, `client_id`) or a tool result, whose content
comes from the external collaborator and is abstracted to a string. -/
inductive ResultVal where
  | auth (session_token : String) (expires_at : Int) (client_id : String)
  | payload (v : String)
deriving DecidableEq

/-- The top-level dict shapes `handle_request` and its helpers return:
`{"result": ...}`, `{"error": {"code": ..., "message": ...}}`, or the
`tools/list` shape `{"tools": [...]}` (tool entries abstracted to names). -/
inductive Response where
  | result (v : ResultVal)
  | error (code message : String)
  | tools (names : List String)
deriving DecidableEq

/-- Top-level keys of the returned dict. -/
def keys : Response → List String
  | .result _ => ["result"]
  | .error _ _ => ["error"]
  | .tools _ => ["tools"]

/-- The external data-warehouse collaborator: each call either yields an
abstract payload or raises, carrying a message string. -/
structure Adapter where
  run_query : String → Int → Bool → Except String String
  list_tables : String → Int → Except String String
  get_table_profile : String → String → Except String String

/-- The server object; its dispatch-relevant state is the manager.
(`project_id` / `credentials_path` only feed the external collaborator.) -/
structure BigQueryMCPServer where
  auth_manager : AuthenticationManager

/-- The keys of the fixed `self.tools` table. -/
def toolNames : List String :=
  ["bq.run_query", "bq.list_tables", "bq.get_table_profile"]

/-- Render an optional string the way an f-string renders the Python value. -/
def optStr : Option String → String
  | none => "None"
  | some s => s

/-- `_run_query`: missing (or empty) `sql` → `INVALID_ARGS` without
contacting the collaborator; a collaborator fault → `QUERY_FAILED` with the
message; success → a `result` envelope. -/
def BigQueryMCPServer.run_query (ad : Adapter) (args : ToolArgs) : Response :=
  if pyTruthy args.sql = false then
    .error "INVALID_ARGS" "sql parameter required"
  else
    match ad.run_query (optStr args.sql) (args.max_results.getD 1000)
        (args.use_legacy_sql.getD false) with
    | .ok v => .result (.payload v)
    | .error e => .error "QUERY_FAILED" e

/-- `_list_tables`: missing (or empty) `dataset_id` → `INVALID_ARGS`;
collaborator fault → `LIST_FAILED`. -/
def BigQueryMCPServer.list_tables (ad : Adapter) (args : ToolArgs) : Response :=
  if pyTruthy args.dataset_id = false then
    .error "INVALID_ARGS" "dataset_id required"
  else
    match ad.list_tables (optStr args.dataset_id) (args.max_results.getD 100) with
    | .ok v => .result (.payload v)
    | .error e => .error "LIST_FAILED" e

/-- `_get_table_profile`: missing `dataset_id` or `table_id` →
`INVALID_ARGS`; collaborator fault → `PROFILE_FAILED`. -/
def BigQueryMCPServer.get_table_profile (ad : Adapter) (args : ToolArgs) :
    Response :=
  if pyTruthy args.dataset_id = false ∨ pyTruthy args.table_id = false then
    .error "INVALID_ARGS" "dataset_id and table_id required"
  else
    match ad.get_table_profile (optStr args.dataset_id) (optStr args.table_id) with
    | .ok v => .result (.payload v)
    | .error e => .error "PROFILE_FAILED" e

/-- `_handle_tool_call`: string dispatch on the tool name; an unrecognized
name yields `TOOL_NOT_FOUND`.  The second component lists the operation
adapters invoked (the validated `session` is only passed on to the
collaborator, whose output is abstracted, so it is not threaded here). -/
def BigQueryMCPServer.handle_tool_call (ad : Adapter) (tool_name : Option String)
    (args : ToolArgs) : Response × List String :=
  if tool_name = some "bq.run_query" then
    (BigQueryMCPServer.run_query ad args, ["bq.run_query"])
  else if tool_name = some "bq.list_tables" then
    (BigQueryMCPServer.list_tables ad args, ["bq.list_tables"])
  else if tool_name = some "bq.get_table_profile" then
    (BigQueryMCPServer.get_table_profile ad args, ["bq.get_table_profile"])
  else
    (.error "TOOL_NOT_FOUND" ("Unknown tool: " ++ optStr tool_name), [])

/-- `_handle_authentication`: a missing or empty `client_id` or
`client_secret` is `INVALID_REQUEST`; failed credentials are
`AUTHENTICATION_FAILED`; success stores the session and returns the token
record.  The inner `none` branch is unreachable (the session was just
inserted); in the source it would raise `AttributeError`, which the outer
handler reports as `INTERNAL_ERROR`. -/
def BigQueryMCPServer.handle_authentication (srv : BigQueryMCPServer)
    (params : Params) (token : String) (now : Int) :
    Response × BigQueryMCPServer :=
  if pyTruthy params.client_id = false ∨ pyTruthy params.client_secret = false then
    (.error "INVALID_REQUEST" "client_id and client_secret required", srv)
  else
    let cid := (params.client_id).getD ""
    let step := srv.auth_manager.authenticate_client cid
      ((params.client_secret).getD "") token now
    match step.1 with
    | some session_token =>
      match step.2.get_session session_token with
      | some session =>
        (.result (.auth session_token session.expires_at cid),
         { srv with auth_manager := step.2 })
      | none =>
        (.error "INTERNAL_ERROR" "NoneType object has no attribute expires_at",
         { srv with auth_manager := step.2 })
    | none =>
      (.error "AUTHENTICATION_FAILED" "Invalid client credentials", srv)

/-- `handle_request`: the whole body runs inside `try/except Exception`; an
exception raised anywhere in the body (modelled by `fault`) is reported as
`INTERNAL_ERROR` carrying its message.  Otherwise: `auth/authenticate` is
forwarded; every other method first requires a truthy token that
`validate_session` accepts, short-circuiting to `UNAUTHORIZED` (the table is
not consulted at all when the token is falsy); then `tools/list`,
`tools/call`, or `METHOD_NOT_FOUND`.  The third component lists the
operation adapters invoked. -/
def BigQueryMCPServer.handle_request (ad : Adapter) (srv : BigQueryMCPServer)
    (req : Request) (token : String) (now : Int) (fault : Option String) :
    Response × BigQueryMCPServer × List String :=
  match fault with
  | some e => (.error "INTERNAL_ERROR" e, srv, [])
  | none =>
    let params := req.params.getD {}
    if req.method = some "auth/authenticate" then
      let step := srv.handle_authentication params token now
      (step.1, step.2, [])
    else
      if pyTruthy params.session_token = false then
        (.error "UNAUTHORIZED" "Invalid or expired session token", srv, [])
      else
        let vstep := srv.auth_manager.validate_session
          ((params.session_token).getD "") now
        let srv2 : BigQueryMCPServer := { srv with auth_manager := vstep.2 }
        if vstep.1 = false then
          (.error "UNAUTHORIZED" "Invalid or expired session token", srv2, [])
        else
          if req.method = some "tools/list" then (.tools toolNames, srv2, [])
          else if req.method = some "tools/call" then
            let tstep := BigQueryMCPServer.handle_tool_call ad params.name
              params.arguments
            (tstep.1, srv2, tstep.2)
          else
            (.error "METHOD_NOT_FOUND" ("Unknown method: " ++ optStr req.method),
             srv2, [])

end MCP

/-! ### Helper lemmas about the rate limiter -/

namespace BQS

theorem filter_window_eq_self {w lo now : Int} {l : List Int}
    (hl : ∀ t ∈ l, lo ≤ t) (hnow : now < lo + w) :
    l.filter (fun t => now - w < t) = l := by
  apply List.filter_eq_self.mpr
  intro a ha
  have := hl a ha
  simp only [decide_eq_true_eq]
  omega

theorem filter_window_eq_nil {w now : Int} {l : List Int}
    (hl : ∀ t ∈ l, t + w ≤ now) :
    l.filter (fun t => now - w < t) = [] := by
  apply List.filter_eq_nil_iff.mpr
  intro a ha
  have := hl a ha
  simp only [decide_eq_true_eq]
  omega

theorem allow_admit (rl : RateLimiter) (cid : String) (now : Int)
    (h : ((rl.requests cid).filter (fun t => now - rl.window < t)).length
          < rl.max_requests) :
    rl.allow cid now =
      (true,
       { rl with requests := upd rl.requests cid (((rl.requests cid).filter (fun t => now - rl.window < t)) ++ [now]) }) := by
  unfold RateLimiter.allow
  rw [if_neg (by omega)]

theorem allow_reject (rl : RateLimiter) (cid : String) (now : Int)
    (h : rl.max_requests ≤
          ((rl.requests cid).filter (fun t => now - rl.window < t)).length) :
    rl.allow cid now =
      (false,
       { rl with requests := upd rl.requests cid ((rl.requests cid).filter (fun t => now - rl.window < t)) }) := by
  unfold RateLimiter.allow
  rw [if_pos h]

/-- While a client's recorded timestamps plus the remaining calls fit under
the cap and every instant lies in one window `[lo, lo + w)`, each call is
admitted and appends its instant. -/
theorem runCalls_admits (cid : String) (lo w : Int) (N : Nat) :
    ∀ (ts : List Int) (rl : RateLimiter) (acc : List Int),
      rl.max_requests = N → rl.window = w →
      rl.requests cid = acc →
      (∀ t ∈ acc, lo ≤ t) →
      (∀ t ∈ ts, lo ≤ t ∧ t < lo + w) →
      acc.length + ts.length ≤ N →
      (runCalls rl cid ts).1 = List.replicate ts.length true ∧
      (runCalls rl cid ts).2.requests cid = acc ++ ts ∧
      (runCalls rl cid ts).2.max_requests = N ∧
      (runCalls rl cid ts).2.window = w := by
  intro ts
  induction ts with
  | nil =>
    intro rl acc hmax hw hreq _ _ _
    simp [runCalls, hmax, hw, hreq]
  | cons t rest ih =>
    intro rl acc hmax hw hreq hacc hts hlen
    have hhead := hts t (by simp)
    have hkeep : (rl.requests cid).filter (fun x => t - rl.window < x) = acc := by
      rw [hreq, hw]
      exact filter_window_eq_self hacc hhead.2
    have hlt : ((rl.requests cid).filter (fun x => t - rl.window < x)).length
        < rl.max_requests := by
      rw [hkeep, hmax]
      simp only [List.length_cons] at hlen
      omega
    have hstep := allow_admit rl cid t hlt
    rw [hkeep] at hstep
    have haccx : ∀ x ∈ acc ++ [t], lo ≤ x := by
      intro x hx
      rcases List.mem_append.mp hx with hx | hx
      · exact hacc x hx
      · have hxt : x = t := by simpa using hx
        rw [hxt]
        exact hhead.1
    have hrest : ∀ x ∈ rest, lo ≤ x ∧ x < lo + w :=
      fun x hx => hts x (List.mem_cons_of_mem _ hx)
    have hlen2 : (acc ++ [t]).length + rest.length ≤ N := by
      simp only [List.length_cons] at hlen
      simp only [List.length_append, List.length_cons, List.length_nil]
      omega
    have hrec := ih { rl with requests := upd rl.requests cid (acc ++ [t]) }
      (acc ++ [t]) hmax hw (by simp [upd]) haccx hrest hlen2
    simp only [runCalls, hstep]
    simp only [List.length_cons, List.replicate_succ]
    refine ⟨by simp [hrec.1], ?_, hrec.2.2.1, hrec.2.2.2⟩
    rw [hrec.2.1]
    simp

theorem runCalls_append (rl : RateLimiter) (cid : String) (l1 l2 : List Int) :
    runCalls rl cid (l1 ++ l2) =
      ((runCalls rl cid l1).1 ++ (runCalls (runCalls rl cid l1).2 cid l2).1,
       (runCalls (runCalls rl cid l1).2 cid l2).2) := by
  induction l1 generalizing rl with
  | nil => simp [runCalls]
  | cons t rest ih => simp [runCalls, ih]

end BQS

/-! ### Concrete fixtures used by the witness theorems -/

/-- A session table holding exactly one session under token `"t1"`. -/
def tbl1 : String → Option ClientSession :=
  upd (fun _ => none) "t1" (some ⟨"c", "t1", 0, 10⟩)

/-- A fixture server state: session `"t1"` (client `"c"`, expires at 10),
empty rate windows, cap 3, window 60. -/
def st0 : BQS.ServerState :=
  ⟨tbl1, MCP.default_registered_clients, ⟨fun _ => [], 3, 60⟩⟩

/-- A fixture state for client `"c"` that has already used its whole quota
inside the current window, holding an expired session `"t1"` and an
unexpired session `"t2"`. -/
def st1 : BQS.ServerState :=
  ⟨upd (upd (fun _ => none) "t2" (some ⟨"c", "t2", 0, 100⟩)) "t1"
     (some ⟨"c", "t1", 0, 10⟩),
   MCP.default_registered_clients,
   ⟨upd (fun _ => []) "c" [15, 16, 17], 3, 60⟩⟩

/-- A fresh manager with the source's hard-coded client table. -/
def am0 : MCP.AuthenticationManager :=
  ⟨MCP.default_registered_clients, fun _ => none⟩

/-- A manager holding one valid session under `"tokA"`. -/
def am1 : MCP.AuthenticationManager :=
  ⟨MCP.default_registered_clients,
   upd (fun _ => none) "tokA" (some ⟨"demo_client_id_123", "tokA", 0, 3600⟩)⟩

/-- A server around `am1`. -/
def srv1 : MCP.BigQueryMCPServer := ⟨am1⟩

/-- A collaborator that always succeeds with fixed payloads. -/
def ad0 : MCP.Adapter :=
  ⟨fun _ _ _ => .ok "qrows", fun _ _ => .ok "tbls", fun _ _ => .ok "prof"⟩

/-! ### Claims -/

/-- C3: on every `allow` call, timestamps older than the window are pruned
first; if the pruned count is below `max_requests` the call instant is
recorded and the call admitted, otherwise it is rejected with nothing
recorded; an unknown client behaves as an empty window; a client issuing
`max_requests + 1` calls inside one window gets exactly the first
`max_requests` admitted and the last rejected, and a call after the window
has elapsed is admitted again. -/
theorem C3_rate_limiter_allow (rl : BQS.RateLimiter) (cid : String)
    (now lo t2 : Int) (N : Nat) (ts : List Int) (tN : Int) :
    (((rl.requests cid).filter (fun t => now - rl.window < t)).length < rl.max_requests →
       rl.allow cid now =
         (true, { rl with requests := upd rl.requests cid (((rl.requests cid).filter (fun t => now - rl.window < t)) ++ [now]) })) ∧
    (rl.max_requests ≤ ((rl.requests cid).filter (fun t => now - rl.window < t)).length →
       rl.allow cid now =
         (false, { rl with requests := upd rl.requests cid ((rl.requests cid).filter (fun t => now - rl.window < t)) })) ∧
    (rl.requests cid = [] → 0 < rl.max_requests →
       rl.allow cid now = (true, { rl with requests := upd rl.requests cid [now] })) ∧
    (rl.max_requests = N → 0 < N → rl.requests cid = [] → ts.length = N →
     (∀ t ∈ ts ++ [tN], lo ≤ t ∧ t < lo + rl.window) →
     (∀ t ∈ ts ++ [tN], t + rl.window ≤ t2) →
       (BQS.runCalls rl cid (ts ++ [tN])).1 = List.replicate N true ++ [false] ∧
       (((BQS.runCalls rl cid (ts ++ [tN])).2).allow cid t2).1 = true) := by
  refine ⟨BQS.allow_admit rl cid now, BQS.allow_reject rl cid now, ?_, ?_⟩
  · intro hempty hpos
    have h := BQS.allow_admit rl cid now (by rw [hempty]; simpa using hpos)
    rw [hempty] at h
    simpa using h
  · intro hmax hpos hempty hlen hin hafter
    obtain ⟨h1, h2, h3, h4⟩ :=
      BQS.runCalls_admits cid lo rl.window N ts rl [] hmax rfl hempty
        (by simp) (fun t ht => hin t (List.mem_append_left _ ht))
        (by simp [hlen])
    have htN := hin tN (List.mem_append_right _ (by simp))
    have hkeepN :
        ((BQS.runCalls rl cid ts).2.requests cid).filter
          (fun x => tN - (BQS.runCalls rl cid ts).2.window < x) = ts := by
      rw [h2, h4]
      simp only [List.nil_append]
      exact BQS.filter_window_eq_self
        (fun t ht => (hin t (List.mem_append_left _ ht)).1) htN.2
    have hrej := BQS.allow_reject (BQS.runCalls rl cid ts).2 cid tN
      (by rw [hkeepN, h3, hlen])
    rw [hkeepN] at hrej
    have hsplit := BQS.runCalls_append rl cid ts [tN]
    constructor
    · rw [hsplit]
      simp only [BQS.runCalls, hrej]
      rw [h1, hlen]
    · rw [hsplit]
      simp only [BQS.runCalls, hrej]
      have hreq2 :
          upd (BQS.runCalls rl cid ts).2.requests cid ts cid = ts := by
        simp [upd]
      have hafter2 : ∀ t ∈ ts, t + rl.window ≤ t2 :=
        fun t ht => hafter t (List.mem_append_left _ ht)
      have hcond :
          ((upd (BQS.runCalls rl cid ts).2.requests cid ts cid).filter
            (fun x => t2 - (BQS.runCalls rl cid ts).2.window < x)).length
            < (BQS.runCalls rl cid ts).2.max_requests := by
        rw [hreq2, h4, h3, BQS.filter_window_eq_nil hafter2]
        simpa using hpos
      have hadm2 := BQS.allow_admit
        ⟨upd (BQS.runCalls rl cid ts).2.requests cid ts,
         (BQS.runCalls rl cid ts).2.max_requests,
         (BQS.runCalls rl cid ts).2.window⟩ cid t2 hcond
      rw [hadm2]

/-- Witness for C3 at concrete inputs: an admit, a reject that leaves the
window untouched, a fresh-client admit, and the full `N + 1`-calls scenario
with cap 2 followed by an admitted call after the window has passed. -/
theorem C3_rate_limiter_allow_witness :
    ((⟨fun _ => [5], 2, 60⟩ : BQS.RateLimiter).allow "c" 10).1 = true ∧
    ((⟨fun _ => [1, 2], 2, 60⟩ : BQS.RateLimiter).allow "c" 5).1 = false ∧
    (((⟨fun _ => [1, 2], 2, 60⟩ : BQS.RateLimiter).allow "c" 5).2).requests "c" = [1, 2] ∧
    ((⟨fun _ => [], 2, 60⟩ : BQS.RateLimiter).allow "c" 7).1 = true ∧
    (BQS.runCalls ⟨fun _ => [], 2, 60⟩ "c" ([0, 10] ++ [20])).1 = [true, true, false] ∧
    (((BQS.runCalls ⟨fun _ => [], 2, 60⟩ "c" ([0, 10] ++ [20])).2).allow "c" 80).1 = true := by
  have hA := (C3_rate_limiter_allow ⟨fun _ => [5], 2, 60⟩ "c" 10 0 0 0 [] 0).1
    (by decide)
  have hB := (C3_rate_limiter_allow ⟨fun _ => [1, 2], 2, 60⟩ "c" 5 0 0 0 [] 0).2.1
    (by decide)
  have hC := (C3_rate_limiter_allow ⟨fun _ => [], 2, 60⟩ "c" 7 0 0 0 [] 0).2.2.1
    rfl (by decide)
  have hD := (C3_rate_limiter_allow ⟨fun _ => [], 2, 60⟩ "c" 0 0 80 2 [0, 10] 20).2.2.2
    rfl (by decide) rfl rfl (by decide) (by decide)
  refine ⟨by rw [hA], by rw [hB], by rw [hB]; decide, by rw [hC], ?_, hD.2⟩
  rw [hD.1]
  decide

/-- C1: `validate_session` (bigquery_server.py) checks existence, then
expiry, then quota, in that order: an absent token is not found with the
whole state (rate limiter included) untouched; a present, expired token is
reported expired — never rate limited — whatever the client's quota, with
the entry deleted and the limiter untouched; a present, unexpired token
whose client the limiter rejects is reported rate limited with the session
table unchanged. -/
theorem C1_validate_session_precedence (st : BQS.ServerState) (tok : String)
    (now : Int) (s : ClientSession) :
    (st.active_sessions tok = none →
       BQS.validate_session st tok now = (.notFound, st)) ∧
    (tok ≠ "" → st.active_sessions tok = some s → s.expires_at < now →
       BQS.validate_session st tok now =
         (.expired, { st with active_sessions := upd st.active_sessions tok none })) ∧
    (tok ≠ "" → st.active_sessions tok = some s → ¬ s.expires_at < now →
       (st.rate_limiter.allow s.client_id now).1 = false →
       (BQS.validate_session st tok now).1 = .rateLimited ∧
       (BQS.validate_session st tok now).2.active_sessions = st.active_sessions ∧
       (BQS.validate_session st tok now).2.active_sessions tok = some s) := by
  refine ⟨?_, ?_, ?_⟩
  · intro hmem
    by_cases htok : tok = "" <;> simp [BQS.validate_session, htok, hmem]
  · intro htok hmem hexp
    simp [BQS.validate_session, htok, hmem, hexp]
  · intro htok hmem hexp hrate
    have hval : BQS.validate_session st tok now =
        (.rateLimited,
         { st with rate_limiter := (st.rate_limiter.allow s.client_id now).2 }) := by
      simp [BQS.validate_session, htok, hmem, hexp, hrate]
    rw [hval]
    exact ⟨rfl, rfl, hmem⟩

/-- Witness for C1: an unknown token is not found with the state untouched,
an expired token is reported expired even though client `"c"` has exhausted
its quota in `st1`, and an unexpired token of a quota-exhausted client is
reported rate limited with the session table intact. -/
theorem C1_validate_session_precedence_witness :
    BQS.validate_session st0 "zzz" 20 = (.notFound, st0) ∧
    BQS.validate_session st0 "t1" 20 =
      (.expired, { st0 with active_sessions := upd st0.active_sessions "t1" none }) ∧
    BQS.validate_session st1 "t1" 20 =
      (.expired, { st1 with active_sessions := upd st1.active_sessions "t1" none }) ∧
    (BQS.validate_session st1 "t2" 20).1 = .rateLimited ∧
    (BQS.validate_session st1 "t2" 20).2.active_sessions "t2" =
      some ⟨"c", "t2", 0, 100⟩ := by
  refine ⟨(C1_validate_session_precedence st0 "zzz" 20 ⟨"c", "t1", 0, 10⟩).1
      (by decide),
    (C1_validate_session_precedence st0 "t1" 20 ⟨"c", "t1", 0, 10⟩).2.1
      (by decide) (by decide) (by decide),
    (C1_validate_session_precedence st1 "t1" 20 ⟨"c", "t1", 0, 10⟩).2.1
      (by decide) (by decide) (by decide), ?_, ?_⟩
  · exact ((C1_validate_session_precedence st1 "t2" 20 ⟨"c", "t2", 0, 100⟩).2.2
      (by decide) (by decide) (by decide) (by decide)).1
  · exact ((C1_validate_session_precedence st1 "t2" 20 ⟨"c", "t2", 0, 100⟩).2.2
      (by decide) (by decide) (by decide) (by decide)).2.2

/-- C6: validating an expired session deletes it, so the next validate of
the same token finds nothing and changes nothing further; the same holds
for the `AuthenticationManager` variant of `validate_session` in
bq_mcp_server.py (which reports both cases as `False`). -/
theorem C6_expired_removal_idempotent (st : BQS.ServerState) (tok : String)
    (now now2 : Int) (s : ClientSession) (am : MCP.AuthenticationManager)
    (htok : tok ≠ "") (hmem : st.active_sessions tok = some s)
    (hexp : s.expires_at < now) :
    BQS.validate_session st tok now =
      (.expired, { st with active_sessions := upd st.active_sessions tok none }) ∧
    ({ st with active_sessions := upd st.active_sessions tok none }
       : BQS.ServerState).active_sessions tok = none ∧
    BQS.validate_session
      { st with active_sessions := upd st.active_sessions tok none } tok now2 =
      (.notFound, { st with active_sessions := upd st.active_sessions tok none }) ∧
    (am.active_sessions tok = some s →
      am.validate_session tok now =
        (false, { am with active_sessions := upd am.active_sessions tok none }) ∧
      ({ am with active_sessions := upd am.active_sessions tok none }
         : MCP.AuthenticationManager).active_sessions tok = none ∧
      MCP.AuthenticationManager.validate_session
        { am with active_sessions := upd am.active_sessions tok none } tok now2 =
        (false, { am with active_sessions := upd am.active_sessions tok none })) := by
  refine ⟨?_, by simp [upd], ?_, ?_⟩
  · simp [BQS.validate_session, htok, hmem, hexp]
  · simp [BQS.validate_session, htok, upd]
  · intro hmem2
    refine ⟨?_, by simp [upd], ?_⟩
    · simp [MCP.AuthenticationManager.validate_session, hmem2, hexp]
    · simp [MCP.AuthenticationManager.validate_session, upd]

/-- Witness for C6: the expired session `"t1"` of `st0` (and of the manager
`am2` below) is deleted on first validate and reported absent on the
second. -/
theorem C6_expired_removal_idempotent_witness :
    BQS.validate_session st0 "t1" 20 =
      (.expired, { st0 with active_sessions := upd st0.active_sessions "t1" none }) ∧
    BQS.validate_session
      { st0 with active_sessions := upd st0.active_sessions "t1" none } "t1" 25 =
      (.notFound, { st0 with active_sessions := upd st0.active_sessions "t1" none }) := by
  have h := C6_expired_removal_idempotent st0 "t1" 20 25 ⟨"c", "t1", 0, 10⟩ am0
    (by decide) (by decide) (by decide)
  exact ⟨h.1, h.2.2.1⟩

/-- C4: authentication succeeds exactly when the client id is registered
with that secret; every failing pair — unregistered id or wrong secret —
yields one and the same outcome (`None` with the manager untouched in
bq_mcp_server.py, the one fixed error string in bigquery_server.py), so
nothing distinguishes which check failed. -/
theorem C4_authenticate_iff_registered (am : MCP.AuthenticationManager)
    (cid cs token : String) (now : Int) :
    ((am.authenticate_client cid cs token now).1 ≠ none ↔
       am.registered_clients cid = some cs) ∧
    (am.registered_clients cid ≠ some cs →
       am.authenticate_client cid cs token now = (none, am)) ∧
    (am.registered_clients cid = some cs →
       am.authenticate_client cid cs token now =
         (some token,
          { am with active_sessions := upd am.active_sessions token (some ⟨cid, token, now, now + session_duration⟩) })) ∧
    (∀ st : BQS.ServerState, st.registered_clients cid ≠ some cs →
       BQS.authenticate st cid cs token now =
         (.errorR "Invalid client credentials", st)) := by
  refine ⟨?_, ?_, ?_, ?_⟩
  · cases hreg : am.registered_clients cid with
    | none => simp [MCP.AuthenticationManager.authenticate_client, hreg]
    | some secret =>
      by_cases hsec : secret = cs <;>
        simp [MCP.AuthenticationManager.authenticate_client, hreg, hsec]
  · intro hne
    cases hreg : am.registered_clients cid with
    | none => simp [MCP.AuthenticationManager.authenticate_client, hreg]
    | some secret =>
      have hsec : secret ≠ cs := fun h => hne (by rw [hreg, h])
      simp [MCP.AuthenticationManager.authenticate_client, hreg, hsec]
  · intro hreg
    simp [MCP.AuthenticationManager.authenticate_client, hreg]
  · intro st hne
    cases hreg : st.registered_clients cid with
    | none => simp [BQS.authenticate, hreg]
    | some secret =>
      have hsec : secret ≠ cs := fun h => hne (by rw [hreg, h])
      simp [BQS.authenticate, hreg, hsec]

/-- Witness for C4: the demo client with its real secret succeeds; the same
id with a wrong secret and an unknown id both produce the identical failure
outcome, in both implementations. -/
theorem C4_authenticate_iff_registered_witness :
    am0.authenticate_client "demo_client_id_123" "demo_secret_xyz789" "tk" 0 =
      (some "tk",
       { am0 with active_sessions := upd am0.active_sessions "tk" (some ⟨"demo_client_id_123", "tk", 0, session_duration⟩) }) ∧
    am0.authenticate_client "demo_client_id_123" "wrong" "tk" 0 = (none, am0) ∧
    am0.authenticate_client "nobody" "demo_secret_xyz789" "tk" 0 = (none, am0) ∧
    BQS.authenticate st0 "demo_client_id_123" "wrong" "tk" 0 =
      (.errorR "Invalid client credentials", st0) := by
  refine ⟨?_, ?_, ?_, ?_⟩
  · have h := (C4_authenticate_iff_registered am0 "demo_client_id_123"
      "demo_secret_xyz789" "tk" 0).2.2.1 (by decide)
    simpa using h
  · exact (C4_authenticate_iff_registered am0 "demo_client_id_123" "wrong"
      "tk" 0).2.1 (by decide)
  · exact (C4_authenticate_iff_registered am0 "nobody" "demo_secret_xyz789"
      "tk" 0).2.1 (by decide)
  · exact (C4_authenticate_iff_registered am0 "demo_client_id_123" "wrong"
      "tk" 0).2.2.2 st0 (by decide)

/-- C5: a successful authenticate immediately validates (within the session
lifetime), and two successive successful authenticates for the same client
— their generated tokens being distinct, per the generator's uniqueness
guarantee — leave two distinct entries in the session table. -/
theorem C5_authenticate_validate_roundtrip (am : MCP.AuthenticationManager)
    (cid cs tok1 tok2 : String) (t1 t2 t3 : Int)
    (hreg : am.registered_clients cid = some cs)
    (hne : tok1 ≠ tok2)
    (ht3 : t3 ≤ t1 + session_duration) :
    (am.authenticate_client cid cs tok1 t1).1 = some tok1 ∧
    ((am.authenticate_client cid cs tok1 t1).2.validate_session tok1 t3).1 = true ∧
    ((am.authenticate_client cid cs tok1 t1).2.validate_session tok1 t3).2 =
      (am.authenticate_client cid cs tok1 t1).2 ∧
    (am.authenticate_client cid cs tok1 t1).2.get_session tok1 =
      some ⟨cid, tok1, t1, t1 + session_duration⟩ ∧
    ((am.authenticate_client cid cs tok1 t1).2.authenticate_client
       cid cs tok2 t2).1 = some tok2 ∧
    ((am.authenticate_client cid cs tok1 t1).2.authenticate_client
       cid cs tok2 t2).2.active_sessions tok1 =
      some ⟨cid, tok1, t1, t1 + session_duration⟩ ∧
    ((am.authenticate_client cid cs tok1 t1).2.authenticate_client
       cid cs tok2 t2).2.active_sessions tok2 =
      some ⟨cid, tok2, t2, t2 + session_duration⟩ := by
  have hnotexp : ¬ t1 + session_duration < t3 := by omega
  refine ⟨?_, ?_, ?_, ?_, ?_, ?_, ?_⟩ <;>
    simp [MCP.AuthenticationManager.authenticate_client,
      MCP.AuthenticationManager.validate_session,
      MCP.AuthenticationManager.get_session, hreg, upd, hnotexp, hne]

/-- Witness for C5 at the demo client with two fresh distinct tokens. -/
theorem C5_authenticate_validate_roundtrip_witness :
    (am0.authenticate_client "demo_client_id_123" "demo_secret_xyz789"
       "a1" 0).1 = some "a1" ∧
    ((am0.authenticate_client "demo_client_id_123" "demo_secret_xyz789"
        "a1" 0).2.validate_session "a1" 10).1 = true ∧
    ((am0.authenticate_client "demo_client_id_123" "demo_secret_xyz789"
        "a1" 0).2.authenticate_client "demo_client_id_123"
        "demo_secret_xyz789" "a2" 5).2.active_sessions "a1" =
      some ⟨"demo_client_id_123", "a1", 0, session_duration⟩ ∧
    ((am0.authenticate_client "demo_client_id_123" "demo_secret_xyz789"
        "a1" 0).2.authenticate_client "demo_client_id_123"
        "demo_secret_xyz789" "a2" 5).2.active_sessions "a2" =
      some ⟨"demo_client_id_123", "a2", 5, 5 + session_duration⟩ := by
  have h := C5_authenticate_validate_roundtrip am0 "demo_client_id_123"
    "demo_secret_xyz789" "a1" "a2" 0 5 10 (by decide) (by decide) (by decide)
  exact ⟨h.1, h.2.1, by simpa using h.2.2.2.2.2.1, by simpa using h.2.2.2.2.2.2⟩

/-- C8: an authenticate request missing `client_id` or `client_secret`
yields `INVALID_REQUEST`, a distinct outcome from the
`AUTHENTICATION_FAILED` credential error; and neither failure creates a
session (the server state is returned unchanged). -/
theorem C8_auth_request_validation (srv : MCP.BigQueryMCPServer)
    (params : MCP.Params) (token : String) (now : Int) :
    ((pyTruthy params.client_id = false ∨ pyTruthy params.client_secret = false) →
       srv.handle_authentication params token now =
         (.error "INVALID_REQUEST" "client_id and client_secret required", srv)) ∧
    (∀ cid cs, params.client_id = some cid → params.client_secret = some cs →
       cid ≠ "" → cs ≠ "" →
       srv.auth_manager.registered_clients cid ≠ some cs →
       srv.handle_authentication params token now =
         (.error "AUTHENTICATION_FAILED" "Invalid client credentials", srv)) ∧
    (MCP.Response.error "INVALID_REQUEST" "client_id and client_secret required" ≠
       MCP.Response.error "AUTHENTICATION_FAILED" "Invalid client credentials") := by
  refine ⟨?_, ?_, by decide⟩
  · intro h
    unfold MCP.BigQueryMCPServer.handle_authentication
    rw [if_pos h]
  · intro cid cs h1 h2 h3 h4 h5
    cases hreg : srv.auth_manager.registered_clients cid with
    | none =>
      simp [MCP.BigQueryMCPServer.handle_authentication,
        MCP.AuthenticationManager.authenticate_client, pyTruthy, h1, h2, h3,
        h4, hreg]
    | some secret =>
      have hsec : secret ≠ cs := fun h => h5 (by rw [hreg, h])
      simp [MCP.BigQueryMCPServer.handle_authentication,
        MCP.AuthenticationManager.authenticate_client, pyTruthy, h1, h2, h3,
        h4, hreg, hsec]

/-- Witness for C8: a request without a secret is `INVALID_REQUEST`; the
demo id with a wrong secret is `AUTHENTICATION_FAILED`; both leave `srv1`
unchanged. -/
theorem C8_auth_request_validation_witness :
    MCP.BigQueryMCPServer.handle_authentication srv1
      { client_id := some "demo_client_id_123" } "tk" 0 =
      (.error "INVALID_REQUEST" "client_id and client_secret required", srv1) ∧
    MCP.BigQueryMCPServer.handle_authentication srv1
      { client_id := some "demo_client_id_123", client_secret := some "wrong" } "tk" 0 =
      (.error "AUTHENTICATION_FAILED" "Invalid client credentials", srv1) := by
  refine ⟨(C8_auth_request_validation srv1
      { client_id := some "demo_client_id_123" } "tk" 0).1 (by decide), ?_⟩
  exact (C8_auth_request_validation srv1
      { client_id := some "demo_client_id_123", client_secret := some "wrong" } "tk" 0).2.1
    "demo_client_id_123" "wrong" rfl rfl (by decide) (by decide) (by decide)

/-- C9: an exception raised anywhere inside the dispatch body (`fault`) is
caught by the outer handler and reported as an `INTERNAL_ERROR` envelope
carrying the exception's message, with no state change and no adapter
invocation — it never escapes `handle_request`, which is total. -/
theorem C9_internal_error_catch_all (ad : MCP.Adapter)
    (srv : MCP.BigQueryMCPServer) (req : MCP.Request) (token : String)
    (now : Int) (e : String) :
    MCP.BigQueryMCPServer.handle_request ad srv req token now (some e) =
      (.error "INTERNAL_ERROR" e, srv, []) := rfl

/-- C10: an empty string behaves like an absent field: `client_id = ""` or
`client_secret = ""` gives `INVALID_REQUEST`; a request with
`session_token = ""` gives `UNAUTHORIZED` with the state returned untouched
for every session table (so the table is never consulted); likewise
bigquery_server.py's `validate_session` rejects `""` as not found for every
state, unchanged. -/
theorem C10_empty_string_as_missing (ad : MCP.Adapter)
    (srv : MCP.BigQueryMCPServer) (req : MCP.Request) (params : MCP.Params)
    (token : String) (now : Int) (st : BQS.ServerState) :
    (params.client_id = some "" →
       srv.handle_authentication params token now =
         (.error "INVALID_REQUEST" "client_id and client_secret required", srv)) ∧
    (params.client_secret = some "" →
       srv.handle_authentication params token now =
         (.error "INVALID_REQUEST" "client_id and client_secret required", srv)) ∧
    (req.method ≠ some "auth/authenticate" →
     (req.params.getD {}).session_token = some "" →
       MCP.BigQueryMCPServer.handle_request ad srv req token now none =
         (.error "UNAUTHORIZED" "Invalid or expired session token", srv, [])) ∧
    BQS.validate_session st "" now = (.notFound, st) := by
  refine ⟨?_, ?_, ?_, ?_⟩
  · intro h
    unfold MCP.BigQueryMCPServer.handle_authentication
    rw [if_pos (Or.inl (by rw [h]; rfl))]
  · intro h
    unfold MCP.BigQueryMCPServer.handle_authentication
    rw [if_pos (Or.inr (by rw [h]; rfl))]
  · intro hm hp
    simp [MCP.BigQueryMCPServer.handle_request, hm, hp, pyTruthy]
  · simp [BQS.validate_session]

/-- Witness for C10: empty credential fields and an empty session token at
concrete requests against `srv1` and `st1`. -/
theorem C10_empty_string_as_missing_witness :
    MCP.BigQueryMCPServer.handle_authentication srv1
      { client_id := some "", client_secret := some "x" } "tk" 0 =
      (.error "INVALID_REQUEST" "client_id and client_secret required", srv1) ∧
    MCP.BigQueryMCPServer.handle_authentication srv1
      { client_id := some "demo_client_id_123", client_secret := some "" } "tk" 0 =
      (.error "INVALID_REQUEST" "client_id and client_secret required", srv1) ∧
    MCP.BigQueryMCPServer.handle_request ad0 srv1
      ⟨some "tools/call", some { session_token := some "" }⟩ "tk" 0 none =
      (.error "UNAUTHORIZED" "Invalid or expired session token", srv1, []) ∧
    BQS.validate_session st1 "" 20 = (.notFound, st1) := by
  have h := C10_empty_string_as_missing ad0 srv1
    ⟨some "tools/call", some { session_token := some "" }⟩
    { client_id := some "", client_secret := some "x" } "tk" 0 st1
  have h2 := C10_empty_string_as_missing ad0 srv1
    ⟨some "tools/call", some { session_token := some "" }⟩
    { client_id := some "demo_client_id_123", client_secret := some "" } "tk" 0 st1
  exact ⟨h.1 rfl, h2.2.1 rfl, h.2.2.1 (by decide) rfl, h.2.2.2⟩

/-- C2: for every non-authenticate request with a missing, unknown, or
revoked (hence absent) token, the dispatcher answers `UNAUTHORIZED` with no
adapter invocation, before the operation name is examined — so an unknown
operation name behind an invalid token reports `UNAUTHORIZED`; under a
valid token the same unknown method yields `METHOD_NOT_FOUND` and an
unknown tool name yields `TOOL_NOT_FOUND`. -/
theorem C2_unauthorized_short_circuit (ad : MCP.Adapter)
    (srv : MCP.BigQueryMCPServer) (req : MCP.Request) (token tk : String)
    (now : Int) :
    (req.method ≠ some "auth/authenticate" →
     (req.params.getD {}).session_token = none →
       MCP.BigQueryMCPServer.handle_request ad srv req token now none =
         (.error "UNAUTHORIZED" "Invalid or expired session token", srv, [])) ∧
    (req.method ≠ some "auth/authenticate" →
     (req.params.getD {}).session_token = some tk → tk ≠ "" →
     (srv.auth_manager.validate_session tk now).1 = false →
       MCP.BigQueryMCPServer.handle_request ad srv req token now none =
         (.error "UNAUTHORIZED" "Invalid or expired session token",
          { srv with auth_manager := (srv.auth_manager.validate_session tk now).2 },
          [])) ∧
    (req.method ≠ some "auth/authenticate" →
     req.method ≠ some "tools/list" → req.method ≠ some "tools/call" →
     (req.params.getD {}).session_token = some tk → tk ≠ "" →
     (srv.auth_manager.validate_session tk now).1 = true →
       MCP.BigQueryMCPServer.handle_request ad srv req token now none =
         (.error "METHOD_NOT_FOUND" ("Unknown method: " ++ MCP.optStr req.method),
          { srv with auth_manager := (srv.auth_manager.validate_session tk now).2 },
          [])) ∧
    (req.method = some "tools/call" →
     (req.params.getD {}).session_token = some tk → tk ≠ "" →
     (srv.auth_manager.validate_session tk now).1 = true →
     (req.params.getD {}).name ≠ some "bq.run_query" →
     (req.params.getD {}).name ≠ some "bq.list_tables" →
     (req.params.getD {}).name ≠ some "bq.get_table_profile" →
       MCP.BigQueryMCPServer.handle_request ad srv req token now none =
         (.error "TOOL_NOT_FOUND"
            ("Unknown tool: " ++ MCP.optStr (req.params.getD {}).name),
          { srv with auth_manager := (srv.auth_manager.validate_session tk now).2 },
          [])) := by
  refine ⟨?_, ?_, ?_, ?_⟩
  · intro hm hp
    simp [MCP.BigQueryMCPServer.handle_request, hm, hp, pyTruthy]
  · intro hm hp htk hval
    simp [MCP.BigQueryMCPServer.handle_request, hm, hp, pyTruthy, htk, hval]
  · intro hm hl hc hp htk hval
    simp [MCP.BigQueryMCPServer.handle_request, hm, hl, hc, hp, pyTruthy,
      htk, hval]
  · intro hm hp htk hval h1 h2 h3
    have hm2 : req.method ≠ some "auth/authenticate" := by
      rw [hm]; decide
    simp [MCP.BigQueryMCPServer.handle_request,
      MCP.BigQueryMCPServer.handle_tool_call, hm, hm2, hp, pyTruthy, htk,
      hval, h1, h2, h3]

/-- Witness for C2 against `srv1` (holding the valid token `"tokA"`): a
missing token, an unknown token, an unknown method under the valid token,
and an unknown tool name under the valid token. -/
theorem C2_unauthorized_short_circuit_witness :
    MCP.BigQueryMCPServer.handle_request ad0 srv1
      ⟨some "tools/call", some { name := some "bq.mystery" }⟩ "g" 10 none =
      (.error "UNAUTHORIZED" "Invalid or expired session token", srv1, []) ∧
    (MCP.BigQueryMCPServer.handle_request ad0 srv1
      ⟨some "tools/call", some { session_token := some "bad", name := some "bq.mystery" }⟩ "g" 10 none).1 =
      .error "UNAUTHORIZED" "Invalid or expired session token" ∧
    (MCP.BigQueryMCPServer.handle_request ad0 srv1
      ⟨some "tools/call", some { session_token := some "bad", name := some "bq.mystery" }⟩ "g" 10 none).2.2 = [] ∧
    (MCP.BigQueryMCPServer.handle_request ad0 srv1
      ⟨some "bogus/method", some { session_token := some "tokA" }⟩
      "g" 10 none).1 =
      .error "METHOD_NOT_FOUND" "Unknown method: bogus/method" ∧
    (MCP.BigQueryMCPServer.handle_request ad0 srv1
      ⟨some "tools/call", some { session_token := some "tokA", name := some "bq.mystery" }⟩ "g" 10 none).1 =
      .error "TOOL_NOT_FOUND" "Unknown tool: bq.mystery" ∧
    (MCP.BigQueryMCPServer.handle_request ad0 srv1
      ⟨some "tools/call", some { session_token := some "tokA", name := some "bq.mystery" }⟩ "g" 10 none).2.2 = [] := by
  have hA := (C2_unauthorized_short_circuit ad0 srv1
    ⟨some "tools/call", some { name := some "bq.mystery" }⟩ "g" "x" 10).1
    (by decide) rfl
  have hB := (C2_unauthorized_short_circuit ad0 srv1
    ⟨some "tools/call", some { session_token := some "bad", name := some "bq.mystery" }⟩ "g" "bad" 10).2.1
    (by decide) rfl (by decide) (by decide)
  have hC := (C2_unauthorized_short_circuit ad0 srv1
    ⟨some "bogus/method", some { session_token := some "tokA" }⟩ "g"
    "tokA" 10).2.2.1 (by decide) (by decide) (by decide) rfl (by decide)
    (by decide)
  have hD := (C2_unauthorized_short_circuit ad0 srv1
    ⟨some "tools/call", some { session_token := some "tokA", name := some "bq.mystery" }⟩ "g" "tokA" 10).2.2.2
    rfl rfl (by decide) (by decide) (by decide) (by decide) (by decide)
  refine ⟨hA, by rw [hB], by rw [hB], ?_, ?_, by rw [hD]⟩
  · rw [hC]; rfl
  · rw [hD]; rfl

/-- Every authentication response is a result or error envelope. -/
theorem MCP.handle_authentication_keys (srv : MCP.BigQueryMCPServer)
    (params : MCP.Params) (token : String) (now : Int) :
    MCP.keys (srv.handle_authentication params token now).1 = ["result"] ∨
    MCP.keys (srv.handle_authentication params token now).1 = ["error"] := by
  simp only [MCP.BigQueryMCPServer.handle_authentication]
  repeat' split
  all_goals simp [MCP.keys]

/-- Every tool-call response is a result or error envelope. -/
theorem MCP.handle_tool_call_keys (ad : MCP.Adapter) (tool_name : Option String)
    (args : MCP.ToolArgs) :
    MCP.keys (MCP.BigQueryMCPServer.handle_tool_call ad tool_name args).1 =
      ["result"] ∨
    MCP.keys (MCP.BigQueryMCPServer.handle_tool_call ad tool_name args).1 =
      ["error"] := by
  simp only [MCP.BigQueryMCPServer.handle_tool_call,
    MCP.BigQueryMCPServer.run_query, MCP.BigQueryMCPServer.list_tables,
    MCP.BigQueryMCPServer.get_table_profile]
  repeat' split
  all_goals simp [MCP.keys]

/-- C7 (amended): every dispatcher response has exactly one of the top-level
keys `result` / `error` — except the `tools/list` success response, whose
only key is `tools`. -/
theorem C7_envelope_amended (ad : MCP.Adapter) (srv : MCP.BigQueryMCPServer)
    (req : MCP.Request) (token : String) (now : Int) (fault : Option String) :
    MCP.keys (MCP.BigQueryMCPServer.handle_request ad srv req token now fault).1 =
      ["result"] ∨
    MCP.keys (MCP.BigQueryMCPServer.handle_request ad srv req token now fault).1 =
      ["error"] ∨
    (req.method = some "tools/list" ∧
     (MCP.BigQueryMCPServer.handle_request ad srv req token now fault).1 =
       MCP.Response.tools MCP.toolNames) := by
  cases fault with
  | some e =>
    right; left
    rfl
  | none =>
    by_cases hauth : req.method = some "auth/authenticate"
    · have heq : (MCP.BigQueryMCPServer.handle_request ad srv req token now none).1 =
          (srv.handle_authentication (req.params.getD {}) token now).1 := by
        simp [MCP.BigQueryMCPServer.handle_request, hauth]
      rw [heq]
      rcases MCP.handle_authentication_keys srv (req.params.getD {}) token now with h | h
      · exact Or.inl h
      · exact Or.inr (Or.inl h)
    · by_cases htok : pyTruthy (req.params.getD {}).session_token = false
      · right; left
        have heq : MCP.BigQueryMCPServer.handle_request ad srv req token now none =
            (.error "UNAUTHORIZED" "Invalid or expired session token", srv, []) := by
          simp [MCP.BigQueryMCPServer.handle_request, hauth, htok]
        rw [heq]
        rfl
      · have htokT : pyTruthy (req.params.getD {}).session_token = true := by
          revert htok
          cases pyTruthy (req.params.getD {}).session_token <;> simp
        by_cases hval : (srv.auth_manager.validate_session
            (((req.params.getD {}).session_token).getD "") now).1 = false
        · right; left
          have heq : (MCP.BigQueryMCPServer.handle_request ad srv req token now none).1 =
              .error "UNAUTHORIZED" "Invalid or expired session token" := by
            simp [MCP.BigQueryMCPServer.handle_request, hauth, htokT, hval]
          rw [heq]
          rfl
        · have hvalT : (srv.auth_manager.validate_session
              (((req.params.getD {}).session_token).getD "") now).1 = true := by
            revert hval
            cases (srv.auth_manager.validate_session
              (((req.params.getD {}).session_token).getD "") now).1 <;> simp
          by_cases hlist : req.method = some "tools/list"
          · right; right
            refine ⟨hlist, ?_⟩
            simp [MCP.BigQueryMCPServer.handle_request, hauth, htokT, hvalT,
              hlist]
          · by_cases hcall : req.method = some "tools/call"
            · have heq : (MCP.BigQueryMCPServer.handle_request ad srv req token now none).1 =
                  (MCP.BigQueryMCPServer.handle_tool_call ad
                    (req.params.getD {}).name (req.params.getD {}).arguments).1 := by
                simp [MCP.BigQueryMCPServer.handle_request, hauth, htokT,
                  hvalT, hlist, hcall]
              rw [heq]
              rcases MCP.handle_tool_call_keys ad (req.params.getD {}).name
                (req.params.getD {}).arguments with h | h
              · exact Or.inl h
              · exact Or.inr (Or.inl h)
            · right; left
              have heq : (MCP.BigQueryMCPServer.handle_request ad srv req token now none).1 =
                  .error "METHOD_NOT_FOUND"
                    ("Unknown method: " ++ MCP.optStr req.method) := by
                simp [MCP.BigQueryMCPServer.handle_request, hauth, htokT,
                  hvalT, hlist, hcall]
              rw [heq]
              rfl

/-- Counterexample refuting C7 as stated: the `tools/list` success response
`{"tools": [...]}` contains neither a `result` key nor an `error` key. -/
theorem C7_envelope_counterexample :
    (MCP.BigQueryMCPServer.handle_request ad0 srv1
      ⟨some "tools/list", some { session_token := some "tokA" }⟩
      "g" 10 none).1 = MCP.Response.tools MCP.toolNames ∧
    MCP.keys (MCP.BigQueryMCPServer.handle_request ad0 srv1
      ⟨some "tools/list", some { session_token := some "tokA" }⟩
      "g" 10 none).1 = ["tools"] ∧
    MCP.keys (MCP.BigQueryMCPServer.handle_request ad0 srv1
      ⟨some "tools/list", some { session_token := some "tokA" }⟩
      "g" 10 none).1 ≠ ["result"] ∧
    MCP.keys (MCP.BigQueryMCPServer.handle_request ad0 srv1
      ⟨some "tools/list", some { session_token := some "tokA" }⟩
      "g" 10 none).1 ≠ ["error"] := by
  decide
